import Mathlib

/-!
Verification of the NoteHub authentication, authorization and token-lifecycle
core against its specification.  The Python sources under `src/notehub` are
shallowly embedded as executable Lean definitions: SQLAlchemy sessions become
explicit list-backed database states, exceptions become `Except`, and wall
clock time is an explicit `Nat` parameter (seconds since epoch).  Third-party
primitives that live outside the repository (werkzeug password hashing, the
HMAC inside pyotp, the signature check inside PyJWT) are modelled at their
interface: an injective tagging function stands in for a perfect hash, and a
token is carried as its (already signature-checked) payload.
-/

namespace NoteHub

/-! ## Python character classifiers (`security.py` helpers)

The repository calls `str.islower`, `str.isupper`, `str.isdigit`,
`str.isspace` and membership in `string.punctuation` on the characters of a
password.  They are modelled here on the ASCII range, which is the range the
policy messages and tests exercise. -/

/-- Model of `ch.islower()` on ASCII. -/
def isPyLower (c : Char) : Bool :=
  'a' ≤ c && c ≤ 'z'

/-- Model of `ch.isupper()` on ASCII. -/
def isPyUpper (c : Char) : Bool :=
  'A' ≤ c && c ≤ 'Z'

/-- Model of `ch.isdigit()` on ASCII. -/
def isPyDigit (c : Char) : Bool :=
  '0' ≤ c && c ≤ '9'

/-- Model of `ch.isspace()` on ASCII: space, tab, newline, vertical tab, form feed, carriage return. -/
def isPySpace (c : Char) : Bool :=
  c == ' ' || c == '\t' || c == '\n' || c == Char.ofNat 11 || c == Char.ofNat 12 || c == '\r'

/-- The 32 characters of Python `string.punctuation`. -/
def pyPunctuation : List Char :=
  ['!', '"', '#', '$', '%', '&', Char.ofNat 39, '(', ')', '*', '+', ',', '-', '.', '/',
   ':', ';', '<', '=', '>', '?', '@', '[', '\\', ']', Char.ofNat 94, '_', Char.ofNat 96,
   Char.ofNat 123, '|', Char.ofNat 125, '~']

/-- Model of `ch in string.punctuation`. -/
def isPyPunct (c : Char) : Bool :=
  pyPunctuation.contains c

/-! ## Password policy (`security.py`) -/

/-- `PASSWORD_POLICY_MIN_LENGTH` from `security.py`. -/
def PASSWORD_POLICY_MIN_LENGTH : Nat := 12

/-- Message appended when the password is too short. -/
def msgTooShort : String :=
  "Password must be at least " ++ toString PASSWORD_POLICY_MIN_LENGTH ++ " characters long."

/-- Message appended when no lowercase letter is present. -/
def msgNoLower : String := "Password must include at least one lowercase letter."

/-- Message appended when no uppercase letter is present. -/
def msgNoUpper : String := "Password must include at least one uppercase letter."

/-- Message appended when no digit is present. -/
def msgNoDigit : String := "Password must include at least one number."

/-- Message appended when no punctuation character is present. -/
def msgNoSpecial : String := "Password must include at least one special character."

/-- Message appended when whitespace occurs in the password. -/
def msgWhitespace : String := "Password cannot contain whitespace characters."

/-- Embedding of `password_policy_errors` from `security.py`.  A `none`
password models Python `None`; `password or ""` becomes `getD ""`.  Each rule
is checked independently and its message appended in source order. -/
def password_policy_errors (password : Option String) : List String :=
  let p := password.getD ""
  let cs := p.toList
  (if p.length < PASSWORD_POLICY_MIN_LENGTH then [msgTooShort] else []) ++
  (if !(cs.any isPyLower) then [msgNoLower] else []) ++
  (if !(cs.any isPyUpper) then [msgNoUpper] else []) ++
  (if !(cs.any isPyDigit) then [msgNoDigit] else []) ++
  (if !(cs.any isPyPunct) then [msgNoSpecial] else []) ++
  (if cs.any isPySpace then [msgWhitespace] else [])

/-- Embedding of `enforce_password_policy` from `security.py`: raising
`ValueError(errors[0])` becomes returning `Except.error` with the first
message. -/
def enforce_password_policy (password : Option String) : Except String Unit :=
  match password_policy_errors password with
  | [] => .ok ()
  | e :: _ => .error e

/-! ## Data model (`models.py`) -/

/-- Embedding of the `User` row (`models.py`): the columns the authentication
core reads.  `password_hash` stores the werkzeug hash, modelled below by the
injective tag `hashString`. -/
structure UserRec where
  id : Nat
  username : String
  password_hash : String
  email : Option String
  totp_secret : Option String
  last_login : Option Nat
deriving DecidableEq, Repr

/-! ## Token codec (`services/jwt_service.py`)

A `JwtToken` is carried as its payload when the HMAC signature verifies under
the server key, and as `malformed` otherwise; `jwtDecode` is the interface of
`jwt.decode`, which checks the signature and then the `exp` claim (PyJWT
raises `ExpiredSignatureError` when `exp` is not in the future). -/

/-- Payload of a signed token: claims `user_id`, `exp`, `iat`, `type` as built
by `generate_token` / `generate_refresh_token`.  `user_id` is optional because
`validate_token` reads it with `payload.get` and treats an absent or zero id
as falsy. -/
structure JwtPayload where
  user_id : Option Nat
  exp : Nat
  iat : Nat
  type : String
deriving DecidableEq, Repr

/-- A bearer token as the server sees it after the signature check. -/
inductive JwtToken where
  | signed (payload : JwtPayload)
  | malformed (detail : String)
deriving DecidableEq, Repr

/-- Failure modes of `jwt.decode`. -/
inductive JwtError where
  | expiredSignature
  | invalidToken (detail : String)
deriving DecidableEq, Repr

/-- Message text carried by a `JwtError`, as PyJWT renders it. -/
def jwtErrorStr : JwtError → String
  | .expiredSignature => "Signature has expired"
  | .invalidToken d => d

/-- Interface model of `jwt.decode(token, secret_key, algorithms=[HS256])`:
signature failure raises `InvalidTokenError`, a non-future `exp` raises
`ExpiredSignatureError`, otherwise the payload is returned. -/
def jwtDecode (now : Nat) (t : JwtToken) : Except JwtError JwtPayload :=
  match t with
  | .malformed d => .error (.invalidToken d)
  | .signed p => if p.exp ≤ now then .error .expiredSignature else .ok p

/-- Embedding of `JWTService.generate_token` (default `expires_in` 86400). -/
def generate_token (now user_id expires_in : Nat) : JwtToken :=
  .signed ⟨some user_id, now + expires_in, now, "access"⟩

/-- Embedding of `JWTService.generate_refresh_token` (default `expires_in`
30 days). -/
def generate_refresh_token (now user_id expires_in : Nat) : JwtToken :=
  .signed ⟨some user_id, now + expires_in, now, "refresh"⟩

/-- Embedding of `JWTService.validate_token`: returns
`(is_valid, user_id, error_message)`.  Mirrors the source order: decode
(signature, expiry), then the type must be one of `access`/`refresh`, then a
falsy `user_id` is rejected. -/
def validate_token (now : Nat) (token : JwtToken) : Bool × Option Nat × Option String :=
  match jwtDecode now token with
  | .error .expiredSignature => (false, none, some "Token has expired")
  | .error (.invalidToken d) => (false, none, some ("Invalid token: " ++ d))
  | .ok payload =>
    if payload.type != "access" && payload.type != "refresh" then
      (false, none, some "Invalid token type")
    else if payload.user_id.getD 0 == 0 then
      (false, none, some "Invalid token payload")
    else
      (true, payload.user_id, none)

/-- Embedding of `JWTService.refresh_access_token`: validates, re-decodes to
check `type == refresh`, then mints a fresh access token with the default
24-hour expiry. -/
def refresh_access_token (now : Nat) (refresh_token : JwtToken) :
    Bool × Option JwtToken × Option String :=
  let v := validate_token now refresh_token
  if !v.1 then
    (false, none, v.2.2)
  else
    match jwtDecode now refresh_token with
    | .error e => (false, none, some ("Invalid refresh token: " ++ jwtErrorStr e))
    | .ok payload =>
      if payload.type != "refresh" then
        (false, none, some "Token is not a refresh token")
      else
        (true, some (generate_token now (v.2.1.getD 0) 86400), none)

/-- Embedding of the `jwt_required` guard (`routes_modules/api_routes.py`)
after the `Authorization` header has been split: `validate_token`, then the
user lookup by id; every failure is a 401 JSON error, success passes the
authenticated user id through to the endpoint. -/
def jwt_required_check (now : Nat) (token : JwtToken) (users : List UserRec) :
    Except String Nat :=
  let v := validate_token now token
  if !v.1 then
    .error ((v.2.2).getD "Invalid token")
  else
    match users.find? (fun u => u.id == v.2.1.getD 0) with
    | none => .error "User not found"
    | some _ => .ok (v.2.1.getD 0)

/-! ## Notes, shares and the access resolver (`services/note_service.py`) -/

/-- Embedding of a `Note` row: the columns `check_note_access` reads.
`owner_id` is nullable in the schema. -/
structure NoteRec where
  id : Nat
  owner_id : Option Nat
deriving DecidableEq, Repr

/-- Embedding of a `ShareNote` row (a grant). -/
structure ShareRec where
  note_id : Nat
  shared_by_id : Nat
  shared_with_id : Nat
  can_edit : Bool
deriving DecidableEq, Repr

/-- The tables the note endpoints touch. -/
structure NotesDB where
  users : List UserRec
  notes : List NoteRec
  shares : List ShareRec
deriving DecidableEq, Repr

/-- Embedding of `NoteService.check_note_access`: returns
`(note, has_access, can_edit)`.  Source order: fetch the note by id; owner
check (`owner_id is not None and owner_id == user.id`); grant lookup by
`(note_id, shared_with_id)`; otherwise no access but the note object is still
returned. -/
def check_note_access (db : NotesDB) (note_id user_id : Nat) :
    Option NoteRec × Bool × Bool :=
  match db.notes.find? (fun n => n.id == note_id) with
  | none => (none, false, false)
  | some note =>
    if note.owner_id == some user_id then
      (some note, true, true)
    else
      match db.shares.find? (fun s => s.note_id == note_id && s.shared_with_id == user_id) with
      | some share => (some note, true, share.can_edit)
      | none => (some note, false, false)

/-- Responses of the single-note API endpoint, reduced to status and body
discriminant. -/
inductive ApiNoteResp where
  | err (status : Nat) (msg : String)
  | ok (note : NoteRec) (can_edit : Bool)
deriving DecidableEq, Repr

/-- Embedding of the `api_get_note` handler (`routes_modules/api_routes.py`):
user lookup, `check_note_access`, then 404 for a missing note, 403 for an
existing note without access, 200 with `can_edit` otherwise. -/
def api_get_note (db : NotesDB) (user_id note_id : Nat) : ApiNoteResp :=
  match db.users.find? (fun u => u.id == user_id) with
  | none => .err 404 "User not found"
  | some user =>
    match check_note_access db note_id user.id with
    | (none, _, _) => .err 404 "Note not found"
    | (some note, has_access, can_edit) =>
      if !has_access then .err 403 "Access denied"
      else .ok note can_edit

/-! ## Second-factor verifier (`models.py`, `User.verify_totp`)

pyotp internals live outside the repository; the HMAC-derived one-time value
is modelled at its interface as an injective pairing of secret and time-step
counter.  `pyotp.TOTP.verify(otp)` is called by the source with its default
`valid_window=0`, i.e. a constant-time comparison against the value at the
current 30-second step only. -/

/-- Interface model of the HOTP value for a secret at a counter. -/
def hotpAt (secret : String) (counter : Nat) : String :=
  secret ++ ":" ++ toString counter

/-- The TOTP time-step counter: 30-second windows. -/
def totpTimecode (t : Nat) : Nat := t / 30

/-- The TOTP value for a secret at wall-clock time `t`. -/
def totpAt (secret : String) (t : Nat) : String :=
  hotpAt secret (totpTimecode t)

/-- Model of `pyotp.TOTP(secret).verify(otp)` with the default
`valid_window=0`: compare against the current step value only. -/
def pyotpVerify (secret otp : String) (now : Nat) : Bool :=
  otp == totpAt secret now

/-- Embedding of `User.verify_totp`: trivially true with no enrolled secret,
otherwise the pyotp comparison. -/
def verify_totp (totp_secret : Option String) (token : String) (now : Nat) : Bool :=
  match totp_secret with
  | none => true
  | some s => pyotpVerify s token now

/-! ## Credential store and ephemeral token ledger
(`models.py`, `services/auth_service.py`)

werkzeug `generate_password_hash` / `check_password_hash` are modelled as an
injective tag plus comparison — a perfect one-way hash at its interface. -/

/-- Interface model of `werkzeug.security.generate_password_hash`. -/
def hashString (password : String) : String :=
  "werkzeug-hash:" ++ password

/-- Embedding of `User.check_password` via `check_password_hash`. -/
def check_password (u : UserRec) (password : String) : Bool :=
  u.password_hash == hashString password

/-- Embedding of `User.set_password`: `enforce_password_policy` first (a
`ValueError` becomes `Except.error`), then the hash field is replaced. -/
def set_password (u : UserRec) (password : String) : Except String UserRec :=
  match enforce_password_policy (some password) with
  | .error e => .error e
  | .ok _ => .ok { u with password_hash := hashString password }

/-- Embedding of a `PasswordResetToken` row. -/
structure ResetTokenRec where
  user_id : Nat
  token : String
  expires_at : Nat
  used : Bool
deriving DecidableEq, Repr

/-- Embedding of `PasswordResetToken.is_valid`: used tokens are invalid,
otherwise the expiry must be strictly in the future. -/
def ResetTokenRec.is_valid (rt : ResetTokenRec) (now : Nat) : Bool :=
  if rt.used then false else decide (now < rt.expires_at)

/-- Embedding of an `Invitation` row. -/
structure InvitationRec where
  token : String
  inviter_id : Nat
  email : Option String
  message : Option String
  used : Bool
  used_by_id : Option Nat
  expires_at : Nat
deriving DecidableEq, Repr

/-- Embedding of `Invitation.is_valid`. -/
def InvitationRec.is_valid (inv : InvitationRec) (now : Nat) : Bool :=
  if inv.used then false else decide (now < inv.expires_at)

/-- The tables the authentication service touches. -/
structure AuthDB where
  users : List UserRec
  reset_tokens : List ResetTokenRec
  invitations : List InvitationRec
deriving DecidableEq, Repr

/-- Embedding of `AuthService.create_password_reset_token`.  The random
`secrets.token_urlsafe(32)` value is passed in as `newTok`.  Source order:
find the user by username; mark every unused reset token of that user used
(the supersession UPDATE); insert a fresh token with a one-hour expiry. -/
def create_password_reset_token (db : AuthDB) (username : String) (now : Nat)
    (newTok : String) : (Bool × Option String × Option UserRec) × AuthDB :=
  match db.users.find? (fun u => u.username == username) with
  | none => ((false, none, none), db)
  | some user =>
    let invalidated := db.reset_tokens.map (fun rt =>
      if rt.user_id == user.id && !rt.used then { rt with used := true } else rt)
    let fresh : ResetTokenRec := ⟨user.id, newTok, now + 3600, false⟩
    ((true, some newTok, some user), { db with reset_tokens := invalidated ++ [fresh] })

/-- Embedding of `AuthService.reset_password`: look the token up, reject when
missing or invalid, fetch the user, set the password (a policy `ValueError`
is caught and reported), and only on success mark the token used. -/
def reset_password (db : AuthDB) (token new_password : String) (now : Nat) :
    (Bool × String) × AuthDB :=
  match db.reset_tokens.find? (fun rt => rt.token == token) with
  | none => ((false, "Invalid or expired reset token."), db)
  | some rt =>
    if !rt.is_valid now then
      ((false, "Invalid or expired reset token."), db)
    else
      match db.users.find? (fun u => u.id == rt.user_id) with
      | none => ((false, "User not found."), db)
      | some user =>
        match set_password user new_password with
        | .error e => ((false, e), db)
        | .ok user2 =>
          let users2 := db.users.map (fun u => if u.id == user.id then user2 else u)
          let tokens2 := db.reset_tokens.map (fun r =>
            if r.token == token then { r with used := true } else r)
          ((true, "Password reset successfully!"), { db with users := users2, reset_tokens := tokens2 })

/-- Model of Python `str.strip()` on ASCII whitespace: drop leading and
trailing whitespace characters. -/
def pyStrip (s : String) : String :=
  ⟨((s.data.dropWhile isPySpace).reverse.dropWhile isPySpace).reverse⟩

/-- Model of Python `str.lower()` on ASCII. -/
def pyLowerStr (s : String) : String :=
  ⟨s.data.map Char.toLower⟩

/-- Next autoincrement id, as the storage layer assigns it at flush. -/
def nextId (users : List UserRec) : Nat :=
  users.foldl (fun m u => max m u.id) 0 + 1

/-- Embedding of `AuthService.register_user`.  The SQLAlchemy session is made
explicit as two database views: `snapshot` is the read view the SELECT
existence checks run against, and `store` is the authoritative state the
unique constraint is checked against at `session.flush()` — they coincide for
a sequential call and differ under a concurrent race.  The
`except IntegrityError` handler of the source is the flush branch returning
the translated duplicate message. -/
def register_user (snapshot store : AuthDB) (username password : String)
    (invitation_token : Option String) (email : Option String) (now : Nat) :
    (Bool × String × Option UserRec) × AuthDB :=
  let uname := pyStrip username
  let em := email.map (fun e => pyLowerStr (pyStrip e))
  match password_policy_errors (some password) with
  | e :: _ => ((false, "Password policy violation: " ++ e, none), store)
  | [] =>
    match snapshot.users.find? (fun u => u.username == uname) with
    | some _ => ((false, "Username already exists.", none), store)
    | none =>
      if (match em with
          | some e => (snapshot.users.find? (fun u : UserRec => u.email == some e)).isSome
          | none => false) then
        ((false, "Email already in use.", none), store)
      else
        match set_password ⟨nextId store.users, uname, "", em, none, none⟩ password with
        | .error e => ((false, "Password error: " ++ e, none), store)
        | .ok newUser =>
          if (store.users.find? (fun u : UserRec => u.username == uname)).isSome then
            ((false, "Username already exists. Please choose a different username.", none), store)
          else
            let store2 := { store with users := store.users ++ [newUser] }
            match invitation_token with
            | none => ((true, "Account created successfully! Please log in.", some newUser), store2)
            | some itok =>
              let invs2 := store2.invitations.map (fun inv : InvitationRec =>
                if inv.token == itok && inv.is_valid now then
                  { inv with used := true, used_by_id := some newUser.id }
                else inv)
              ((true, "Account created successfully! Please log in.", some newUser),
               { store2 with invitations := invs2 })

/-- Two registrations of the same username racing: both run their existence
checks against the same snapshot `db`, then their flushes are serialized by
the store — the first insert lands, the second hits the unique constraint. -/
def concurrent_registration (db : AuthDB) (username password : String)
    (email : Option String) (now : Nat) :
    (Bool × String × Option UserRec) × (Bool × String × Option UserRec) × AuthDB :=
  let r1 := register_user db db username password none email now
  let r2 := register_user db r1.2 username password none email now
  (r1.1, r2.1, r2.2)

/-- A sequence of password-reset issue operations, each a
`(username, now, fresh token)` triple, folded over
`create_password_reset_token`. -/
def issueRuns (db : AuthDB) (ops : List (String × Nat × String)) : AuthDB :=
  ops.foldl (fun d op => (create_password_reset_token d op.1 op.2.1 op.2.2).2) db

/-! ## Login (`AuthService.authenticate_user`, `api_login`) -/

/-- Embedding of `AuthService.authenticate_user`: find the user by username
or email, then check the password; any failure is `none`. -/
def authenticate_user (db : AuthDB) (username_or_email password : String) :
    Option UserRec :=
  match db.users.find? (fun u =>
      u.username == username_or_email || u.email == some username_or_email) with
  | some user => if check_password user password then some user else none
  | none => none

/-- Responses of the `api_login` handler, reduced to their discriminant. -/
inductive LoginResp where
  | invalidCredentials
  | requires2fa
  | invalid2fa
  | success (access refresh : JwtToken) (user_id : Nat)
deriving DecidableEq, Repr

/-- Embedding of the `api_login` handler (`routes_modules/api_routes.py`)
after JSON parsing: authenticate, the two 2FA gates, then token issuance and
the `last_login` update.  `totp_code = none` models the key being absent from
the request body. -/
def api_login (db : AuthDB) (username password : String)
    (totp_code : Option String) (now : Nat) : LoginResp × AuthDB :=
  match authenticate_user db username password with
  | none => (.invalidCredentials, db)
  | some user =>
    if user.totp_secret.isSome && totp_code.isNone then
      (.requires2fa, db)
    else if user.totp_secret.isSome && !verify_totp user.totp_secret (totp_code.getD "") now then
      (.invalid2fa, db)
    else
      let users2 := db.users.map (fun u =>
        if u.id == user.id then { u with last_login := some now } else u)
      (.success (generate_token now user.id 86400)
        (generate_refresh_token now user.id (86400 * 30)) user.id,
       { db with users := users2 })

/-! ## Theorems -/

/-- A conditional singleton list is empty iff its condition fails. -/
theorem if_singleton_eq_nil {α : Type} (c : Prop) [Decidable c] (m : α) :
    ((if c then [m] else []) = []) ↔ ¬c := by
  split_ifs with h <;> simp [h]

/-- C8: password policy characterization.  For every password (including
`none`, which counts as an automatic length failure rather than an error),
`password_policy_errors` returns the empty list iff the password has length at
least 12, contains at least one lowercase letter, one uppercase letter, one
digit and one punctuation character, and contains no whitespace character. -/
theorem password_policy_characterization (password : Option String) :
    (password_policy_errors password = [] ↔
      (12 ≤ (password.getD "").length ∧
       (password.getD "").toList.any isPyLower = true ∧
       (password.getD "").toList.any isPyUpper = true ∧
       (password.getD "").toList.any isPyDigit = true ∧
       (password.getD "").toList.any isPyPunct = true ∧
       (password.getD "").toList.any isPySpace = false)) ∧
    password_policy_errors none ≠ [] ∧
    msgTooShort ∈ password_policy_errors none := by
  refine ⟨?_, ?_, ?_⟩
  · unfold password_policy_errors PASSWORD_POLICY_MIN_LENGTH
    dsimp only
    simp only [List.append_eq_nil, if_singleton_eq_nil, Bool.not_eq_true, Nat.not_lt,
      Bool.not_eq_false_eq_eq_true]
    tauto
  · unfold password_policy_errors PASSWORD_POLICY_MIN_LENGTH
    simp
  · unfold password_policy_errors PASSWORD_POLICY_MIN_LENGTH
    simp

/-- C1 counterexample: a well-signed, unexpired token whose `type` claim is
`refresh` is accepted by `validate_token` and by the `jwt_required` guard at
an access-token endpoint, contradicting the claim that it is rejected with a
typed error. -/
theorem refresh_token_accepted_where_access_required :
    (JwtPayload.mk (some 1) 100 0 "refresh").type = "refresh" ∧
    validate_token 0 (JwtToken.signed (JwtPayload.mk (some 1) 100 0 "refresh")) =
      (true, some 1, none) ∧
    jwt_required_check 0 (JwtToken.signed (JwtPayload.mk (some 1) 100 0 "refresh"))
      [⟨1, "alice", "hash", none, none, none⟩] = .ok 1 := by
  refine ⟨rfl, rfl, rfl⟩

/-- C1 amended: token type confinement holds in one direction only.
`validate_token` (and hence the `jwt_required` guard) accepts every
well-signed, unexpired token with a truthy `user_id` whose `type` is `access`
OR `refresh` — so a valid refresh token is accepted where an access token is
required.  Conversely `refresh_access_token` rejects every valid token whose
`type` is `access` with the distinct error `Token is not a refresh token`. -/
theorem token_type_confinement_amended (now : Nat) (p : JwtPayload)
    (users : List UserRec) (u : UserRec) :
    (now < p.exp → (p.type = "access" ∨ p.type = "refresh") → p.user_id.getD 0 ≠ 0 →
      users.find? (fun v => v.id == p.user_id.getD 0) = some u →
      jwt_required_check now (.signed p) users = .ok (p.user_id.getD 0)) ∧
    (now < p.exp → p.type = "access" → p.user_id.getD 0 ≠ 0 →
      refresh_access_token now (.signed p) =
        (false, none, some "Token is not a refresh token")) := by
  constructor
  · intro hexp htype huid hfind
    have hdec : jwtDecode now (.signed p) = .ok p := by
      simp [jwtDecode, Nat.not_le.mpr hexp]
    have hval : validate_token now (.signed p) = (true, p.user_id, none) := by
      rcases htype with h | h <;>
        simp [validate_token, hdec, h, huid]
    simp [jwt_required_check, hval, hfind]
  · intro hexp htype huid
    have hdec : jwtDecode now (.signed p) = .ok p := by
      simp [jwtDecode, Nat.not_le.mpr hexp]
    have hval : validate_token now (.signed p) = (true, p.user_id, none) := by
      simp [validate_token, hdec, htype, huid]
    simp [refresh_access_token, hval, hdec, htype]

/-- C1 witness: the amended theorem applied at a concrete refresh token
(accepted by the guard) and a concrete access token (rejected by refresh). -/
theorem token_type_confinement_amended_witness :
    jwt_required_check 0 (.signed ⟨some 1, 100, 0, "refresh"⟩)
      [⟨1, "alice", "hash", none, none, none⟩] = .ok 1 ∧
    refresh_access_token 0 (.signed ⟨some 1, 100, 0, "access"⟩) =
      (false, none, some "Token is not a refresh token") :=
  ⟨(token_type_confinement_amended 0 ⟨some 1, 100, 0, "refresh"⟩
      [⟨1, "alice", "hash", none, none, none⟩] ⟨1, "alice", "hash", none, none, none⟩).1
      (by decide) (Or.inr rfl) (by decide) rfl,
   (token_type_confinement_amended 0 ⟨some 1, 100, 0, "access"⟩
      [⟨1, "alice", "hash", none, none, none⟩] ⟨1, "alice", "hash", none, none, none⟩).2
      (by decide) rfl (by decide)⟩

/-- C2: access resolution order of `check_note_access`.  A missing note gives
`(none, false, false)`; the owner gets `(note, true, true)` regardless of any
grant row; otherwise a grant for `(note, principal)` gives
`(note, true, grant.can_edit)`; otherwise no access. -/
theorem check_note_access_resolution (db : NotesDB) (note_id user_id : Nat) :
    (db.notes.find? (fun n => n.id == note_id) = none →
      check_note_access db note_id user_id = (none, false, false)) ∧
    (∀ note, db.notes.find? (fun n => n.id == note_id) = some note →
      note.owner_id = some user_id →
      check_note_access db note_id user_id = (some note, true, true)) ∧
    (∀ note share, db.notes.find? (fun n => n.id == note_id) = some note →
      note.owner_id ≠ some user_id →
      db.shares.find? (fun s => s.note_id == note_id && s.shared_with_id == user_id) =
        some share →
      check_note_access db note_id user_id = (some note, true, share.can_edit)) ∧
    (∀ note, db.notes.find? (fun n => n.id == note_id) = some note →
      note.owner_id ≠ some user_id →
      db.shares.find? (fun s => s.note_id == note_id && s.shared_with_id == user_id) =
        none →
      check_note_access db note_id user_id = (some note, false, false)) := by
  refine ⟨?_, ?_, ?_, ?_⟩
  · intro hnote
    simp [check_note_access, hnote]
  · intro note hnote howner
    simp [check_note_access, hnote, howner]
  · intro note share hnote howner hshare
    simp [check_note_access, hnote, hshare, beq_eq_false_iff_ne.mpr howner]
  · intro note hnote howner hshare
    simp [check_note_access, hnote, hshare, beq_eq_false_iff_ne.mpr howner]

/-- C2 witness: the four resolution cases evaluated on a concrete database
with one note (id 10, owner 1) and one read-only grant to user 2. -/
theorem check_note_access_resolution_witness :
    check_note_access ⟨[], [⟨10, some 1⟩], [⟨10, 1, 2, false⟩]⟩ 99 1 = (none, false, false) ∧
    check_note_access ⟨[], [⟨10, some 1⟩], [⟨10, 1, 2, false⟩]⟩ 10 1 = (some ⟨10, some 1⟩, true, true) ∧
    check_note_access ⟨[], [⟨10, some 1⟩], [⟨10, 1, 2, false⟩]⟩ 10 2 = (some ⟨10, some 1⟩, true, false) ∧
    check_note_access ⟨[], [⟨10, some 1⟩], [⟨10, 1, 2, false⟩]⟩ 10 3 = (some ⟨10, some 1⟩, false, false) :=
  ⟨(check_note_access_resolution ⟨[], [⟨10, some 1⟩], [⟨10, 1, 2, false⟩]⟩ 99 1).1 rfl,
   (check_note_access_resolution ⟨[], [⟨10, some 1⟩], [⟨10, 1, 2, false⟩]⟩ 10 1).2.1
     ⟨10, some 1⟩ rfl rfl,
   (check_note_access_resolution ⟨[], [⟨10, some 1⟩], [⟨10, 1, 2, false⟩]⟩ 10 2).2.2.1
     ⟨10, some 1⟩ ⟨10, 1, 2, false⟩ rfl (by decide) rfl,
   (check_note_access_resolution ⟨[], [⟨10, some 1⟩], [⟨10, 1, 2, false⟩]⟩ 10 3).2.2.2
     ⟨10, some 1⟩ rfl (by decide) rfl⟩

/-- C10: existence disclosure by access resolution.  An existing note is
returned by `check_note_access` even without access; only a missing note
yields `none`; consequently `api_get_note` answers 403 `Access denied` for an
existing inaccessible note and 404 `Note not found` only for a missing
note. -/
theorem note_existence_disclosure (db : NotesDB) (user_id note_id : Nat) :
    (∀ note, db.notes.find? (fun n => n.id == note_id) = some note →
      (check_note_access db note_id user_id).1 = some note) ∧
    (db.notes.find? (fun n => n.id == note_id) = none →
      (check_note_access db note_id user_id).1 = none) ∧
    (∀ u note, db.users.find? (fun v => v.id == user_id) = some u →
      db.notes.find? (fun n => n.id == note_id) = some note →
      (check_note_access db note_id user_id).2.1 = false →
      api_get_note db user_id note_id = .err 403 "Access denied") ∧
    (∀ u, db.users.find? (fun v => v.id == user_id) = some u →
      db.notes.find? (fun n => n.id == note_id) = none →
      api_get_note db user_id note_id = .err 404 "Note not found") := by
  have hid : ∀ u : UserRec, db.users.find? (fun v => v.id == user_id) = some u →
      u.id = user_id := by
    intro u hu
    have := List.find?_some hu
    simpa using this
  refine ⟨?_, ?_, ?_, ?_⟩
  · intro note hnote
    unfold check_note_access
    rw [hnote]
    by_cases howner : note.owner_id = some user_id
    · simp [howner]
    · cases hshare : db.shares.find?
          (fun s => s.note_id == note_id && s.shared_with_id == user_id) with
      | none => simp [hshare, beq_eq_false_iff_ne.mpr howner]
      | some share => simp [hshare, beq_eq_false_iff_ne.mpr howner]
  · intro hnote
    simp [check_note_access, hnote]
  · intro u note hu hnote hacc
    have hu2 := hid u hu
    unfold api_get_note
    rw [hu]
    dsimp only
    rw [hu2]
    rcases hcheck : check_note_access db note_id user_id with ⟨onote, has_access, can_edit⟩
    rcases onote with _ | note2
    · exfalso
      have h1 : (check_note_access db note_id user_id).1 = some note := by
        unfold check_note_access
        rw [hnote]
        by_cases howner : note.owner_id = some user_id
        · simp [howner]
        · cases hshare : db.shares.find?
              (fun s => s.note_id == note_id && s.shared_with_id == user_id) with
          | none => simp [hshare, beq_eq_false_iff_ne.mpr howner]
          | some share => simp [hshare, beq_eq_false_iff_ne.mpr howner]
      rw [hcheck] at h1
      simp at h1
    · have hacc2 : has_access = false := by
        rw [hcheck] at hacc
        simpa using hacc
      simp [hacc2]
  · intro u hu hnote
    have hu2 := hid u hu
    unfold api_get_note
    rw [hu]
    dsimp only
    rw [hu2]
    have h1 : check_note_access db note_id user_id = (none, false, false) := by
      simp [check_note_access, hnote]
    rw [h1]

/-- C10 witness: on a concrete database, user 3 (no ownership, no grant) gets
403 for the existing note 10, and user 1 gets 404 for the missing note 99. -/
theorem note_existence_disclosure_witness :
    (check_note_access ⟨[⟨1, "a", "h", none, none, none⟩, ⟨3, "c", "h", none, none, none⟩],
        [⟨10, some 1⟩], []⟩ 10 3).1 = some ⟨10, some 1⟩ ∧
    api_get_note ⟨[⟨1, "a", "h", none, none, none⟩, ⟨3, "c", "h", none, none, none⟩],
        [⟨10, some 1⟩], []⟩ 3 10 = .err 403 "Access denied" ∧
    api_get_note ⟨[⟨1, "a", "h", none, none, none⟩, ⟨3, "c", "h", none, none, none⟩],
        [⟨10, some 1⟩], []⟩ 1 99 = .err 404 "Note not found" :=
  ⟨(note_existence_disclosure ⟨[⟨1, "a", "h", none, none, none⟩,
      ⟨3, "c", "h", none, none, none⟩], [⟨10, some 1⟩], []⟩ 3 10).1 ⟨10, some 1⟩ rfl,
   (note_existence_disclosure ⟨[⟨1, "a", "h", none, none, none⟩,
      ⟨3, "c", "h", none, none, none⟩], [⟨10, some 1⟩], []⟩ 3 10).2.2.1
     ⟨3, "c", "h", none, none, none⟩ ⟨10, some 1⟩ rfl rfl rfl,
   (note_existence_disclosure ⟨[⟨1, "a", "h", none, none, none⟩,
      ⟨3, "c", "h", none, none, none⟩], [⟨10, some 1⟩], []⟩ 1 99).2.2.2
     ⟨1, "a", "h", none, none, none⟩ rfl rfl⟩

/-- C3 counterexample: at time 60 the code equal to the value of the
immediately adjacent time step (time 30, one step earlier) is inside the
claimed plus-minus-one window, yet `verify_totp` rejects it — pyotp is called
with its default zero tolerance window. -/
theorem adjacent_totp_code_rejected :
    (totpAt "S" 30 = totpAt "S" 30 ∨ totpAt "S" 30 = totpAt "S" 60 ∨
      totpAt "S" 30 = totpAt "S" 90) ∧
    verify_totp (some "S") (totpAt "S" 30) 60 = false :=
  ⟨Or.inl rfl, by decide⟩

/-- C3 amended: second-factor verification.  `verify_totp` returns true when
no secret is enrolled; when a secret is enrolled it returns true iff the
submitted code equals the one-time value of the current 30-second time step
only (pyotp default `valid_window=0`), with no adjacent-step tolerance. -/
theorem verify_totp_current_step_only (secret token : String) (now : Nat) :
    verify_totp none token now = true ∧
    (verify_totp (some secret) token now = true ↔ token = totpAt secret now) := by
  constructor
  · rfl
  · simp [verify_totp, pyotpVerify]

/-- Finding by token commutes with a map that preserves the token field. -/
theorem find?_token_map (tokens : List ResetTokenRec) (t : String)
    (f : ResetTokenRec → ResetTokenRec) (hf : ∀ rt, (f rt).token = rt.token) :
    (tokens.map f).find? (fun r => r.token == t) =
      (tokens.find? (fun r => r.token == t)).map f := by
  induction tokens with
  | nil => rfl
  | cons a l ih =>
    simp only [List.map_cons, List.find?_cons]
    cases h : (a.token == t) with
    | true =>
      have : ((f a).token == t) = true := by rw [hf a]; exact h
      simp [this]
    | false =>
      have : ((f a).token == t) = false := by rw [hf a]; exact h
      simp [this, ih]

/-- A reset token already marked used is rejected with the invalid-token
failure and the state is returned unchanged. -/
theorem reset_password_rejects_used (d : AuthDB) (tok pw : String) (now : Nat)
    (rt : ResetTokenRec)
    (hfind : d.reset_tokens.find? (fun r => r.token == tok) = some rt)
    (hused : rt.used = true) :
    reset_password d tok pw now = ((false, "Invalid or expired reset token."), d) := by
  unfold reset_password
  rw [hfind]
  simp [ResetTokenRec.is_valid, hused]

/-- C4: single-use reset tokens.  Any reset token already marked used is
rejected by a subsequent `reset_password` with the invalid-token failure and
the state is unchanged; in particular a successful `reset_password` (redeem
plus consume) makes every second `reset_password` of the same token fail
without touching the state. -/
theorem used_reset_token_rejected (db : AuthDB) (tok pw pw2 : String) (now now2 : Nat) :
    (∀ rt, db.reset_tokens.find? (fun r => r.token == tok) = some rt →
      rt.used = true →
      reset_password db tok pw2 now2 = ((false, "Invalid or expired reset token."), db)) ∧
    ((reset_password db tok pw now).1.1 = true →
      reset_password (reset_password db tok pw now).2 tok pw2 now2 =
        ((false, "Invalid or expired reset token."), (reset_password db tok pw now).2)) := by
  have hreject := fun d rt h1 h2 => reset_password_rejects_used d tok pw2 now2 rt h1 h2
  refine ⟨hreject db, ?_⟩
  intro hsucc
  cases hfind : db.reset_tokens.find? (fun r => r.token == tok) with
  | none =>
    exfalso
    unfold reset_password at hsucc
    rw [hfind] at hsucc
    simp at hsucc
  | some rt =>
    unfold reset_password at hsucc
    rw [hfind] at hsucc
    dsimp only at hsucc
    cases hvalid : rt.is_valid now with
    | false =>
      exfalso
      rw [hvalid] at hsucc
      simp at hsucc
    | true =>
      rw [hvalid] at hsucc
      simp only [Bool.not_true, Bool.false_eq_true, if_false] at hsucc
      cases huser : db.users.find? (fun u => u.id == rt.user_id) with
      | none =>
        exfalso
        rw [huser] at hsucc
        simp at hsucc
      | some user =>
        rw [huser] at hsucc
        dsimp only at hsucc
        cases hset : set_password user pw with
        | error e =>
          exfalso
          rw [hset] at hsucc
          simp at hsucc
        | ok user2 =>
          have hstate : (reset_password db tok pw now).2 =
              { db with
                users := db.users.map (fun u => if u.id == user.id then user2 else u),
                reset_tokens := db.reset_tokens.map (fun r =>
                  if r.token == tok then { r with used := true } else r) } := by
            unfold reset_password
            rw [hfind]
            dsimp only
            rw [hvalid]
            simp only [Bool.not_true, Bool.false_eq_true, if_false]
            rw [huser]
            dsimp only
            rw [hset]
          rw [hstate]
          refine hreject _ { rt with used := true } ?_ rfl
          dsimp only
          rw [find?_token_map _ _ _ (fun r => by
            by_cases h : (r.token == tok) = true <;> simp [h])]
          rw [hfind]
          have htokeq : (rt.token == tok) = true := by
            have h := List.find?_some hfind
            simpa using h
          have hr : rt.token = tok := by simpa using htokeq
          simp [htokeq, hr]

/-- C4 witness: on a concrete state, a valid redeem plus consume of token
`t1` makes the second redeem fail with the invalid-token message and leave
the state unchanged. -/
theorem used_reset_token_rejected_witness :
    (reset_password ⟨[⟨1, "alice", "x", none, none, none⟩], [⟨1, "t1", 100, false⟩], []⟩
        "t1" "Str0ng!Pass#2025" 0).1.1 = true ∧
    reset_password (reset_password ⟨[⟨1, "alice", "x", none, none, none⟩],
        [⟨1, "t1", 100, false⟩], []⟩ "t1" "Str0ng!Pass#2025" 0).2 "t1" "Als0!Strong#26" 1 =
      ((false, "Invalid or expired reset token."),
        (reset_password ⟨[⟨1, "alice", "x", none, none, none⟩],
          [⟨1, "t1", 100, false⟩], []⟩ "t1" "Str0ng!Pass#2025" 0).2) := by
  have h1 : (reset_password ⟨[⟨1, "alice", "x", none, none, none⟩],
      [⟨1, "t1", 100, false⟩], []⟩ "t1" "Str0ng!Pass#2025" 0).1.1 = true := by decide
  exact ⟨h1, (used_reset_token_rejected ⟨[⟨1, "alice", "x", none, none, none⟩],
    [⟨1, "t1", 100, false⟩], []⟩ "t1" "Str0ng!Pass#2025" "Als0!Strong#26" 0 1).2 h1⟩

/-- C6: atomicity of password reset on policy failure.  When the new password
violates the policy, `reset_password` reports the first policy message and
returns the state unchanged: the token is not burnt and the stored hash is
untouched. -/
theorem reset_password_policy_failure_atomic (db : AuthDB) (tok pw : String)
    (now : Nat) (rt : ResetTokenRec) (user : UserRec) (e : String) (es : List String) :
    db.reset_tokens.find? (fun r => r.token == tok) = some rt →
    rt.is_valid now = true →
    db.users.find? (fun u => u.id == rt.user_id) = some user →
    password_policy_errors (some pw) = e :: es →
    reset_password db tok pw now = ((false, e), db) := by
  intro hfind hvalid huser herr
  unfold reset_password
  rw [hfind]
  dsimp only
  rw [hvalid]
  simp only [Bool.not_true, Bool.false_eq_true, if_false]
  rw [huser]
  dsimp only
  have hset : set_password user pw = .error e := by
    unfold set_password enforce_password_policy
    rw [herr]
  rw [hset]

/-- C6 witness: a too-short replacement password leaves the concrete state
untouched and reports the length rule. -/
theorem reset_password_policy_failure_atomic_witness :
    reset_password ⟨[⟨1, "alice", "x", none, none, none⟩], [⟨1, "t1", 100, false⟩], []⟩
        "t1" "short" 0 =
      ((false, msgTooShort),
        ⟨[⟨1, "alice", "x", none, none, none⟩], [⟨1, "t1", 100, false⟩], []⟩) :=
  reset_password_policy_failure_atomic
    ⟨[⟨1, "alice", "x", none, none, none⟩], [⟨1, "t1", 100, false⟩], []⟩
    "t1" "short" 0 ⟨1, "t1", 100, false⟩ ⟨1, "alice", "x", none, none, none⟩
    msgTooShort [msgNoUpper, msgNoDigit, msgNoSpecial]
    rfl (by decide) rfl (by decide)

/-- Marking the unused reset tokens of user `tid` used leaves that user with
no unused token. -/
theorem filter_unused_invalidate_self (tokens : List ResetTokenRec) (tid : Nat) :
    ((tokens.map (fun rt =>
      if rt.user_id == tid && !rt.used then { rt with used := true } else rt)).filter
        (fun rt => rt.user_id == tid && !rt.used)) = [] := by
  induction tokens with
  | nil => rfl
  | cons a l ih =>
    simp only [List.map_cons, List.filter_cons]
    by_cases h2 : a.used = true
    · have hmap : (a.user_id == tid && !a.used) = false := by
        rw [h2]
        simp
      rw [hmap]
      simp only [Bool.false_eq_true, if_false]
      rw [hmap]
      simp only [Bool.false_eq_true, if_false]
      exact ih
    · by_cases h1 : (a.user_id == tid) = true
      · have hmap : (a.user_id == tid && !a.used) = true := by
          rw [h1, Bool.eq_false_iff.mpr h2]
          rfl
        rw [hmap]
        simp only [if_true]
        simp only [Bool.not_true, Bool.and_false, Bool.false_eq_true, if_false]
        exact ih
      · have hmap : (a.user_id == tid && !a.used) = false := by
          rw [Bool.eq_false_iff.mpr h1]
          rfl
        rw [hmap]
        simp only [Bool.false_eq_true, if_false]
        rw [hmap]
        simp only [Bool.false_eq_true, if_false]
        exact ih

/-- Marking the unused reset tokens of user `tid` used does not change the
unused tokens of any other user. -/
theorem filter_unused_invalidate_other (tokens : List ResetTokenRec) (tid uid : Nat)
    (h : ¬ uid = tid) :
    ((tokens.map (fun rt =>
      if rt.user_id == tid && !rt.used then { rt with used := true } else rt)).filter
        (fun rt => rt.user_id == uid && !rt.used)) =
      tokens.filter (fun rt => rt.user_id == uid && !rt.used) := by
  induction tokens with
  | nil => rfl
  | cons a l ih =>
    simp only [List.map_cons, List.filter_cons]
    by_cases h2 : a.used = true
    · have hmap : (a.user_id == tid && !a.used) = false := by
        rw [h2]
        simp
      have hfil : (a.user_id == uid && !a.used) = false := by
        rw [h2]
        simp
      rw [hmap]
      simp only [Bool.false_eq_true, if_false]
      rw [hfil]
      simp only [Bool.false_eq_true, if_false]
      exact ih
    · by_cases h1 : (a.user_id == tid) = true
      · have ha : a.user_id = tid := by simpa using h1
        have hmap : (a.user_id == tid && !a.used) = true := by
          rw [h1, Bool.eq_false_iff.mpr h2]
          rfl
        have hne : (a.user_id == uid) = false := by
          rw [ha]
          exact beq_eq_false_iff_ne.mpr (fun hh => h hh.symm)
        rw [hmap]
        simp only [if_true]
        simp only [Bool.not_true, Bool.and_false, Bool.false_eq_true, if_false, hne,
          Bool.false_and]
        exact ih
      · have hmap : (a.user_id == tid && !a.used) = false := by
          rw [Bool.eq_false_iff.mpr h1]
          rfl
        rw [hmap]
        simp only [Bool.false_eq_true, if_false]
        rw [ih]

/-- One issue operation re-establishes the at-most-one-unused bound for every
user. -/
theorem create_at_most_one_unused (db : AuthDB) (username : String) (now : Nat)
    (tok : String)
    (h : ∀ uid, ((db.reset_tokens.filter
      (fun rt => rt.user_id == uid && !rt.used)).length ≤ 1)) :
    ∀ uid, ((((create_password_reset_token db username now tok).2).reset_tokens.filter
      (fun rt => rt.user_id == uid && !rt.used)).length ≤ 1) := by
  intro uid
  unfold create_password_reset_token
  cases hfind : db.users.find? (fun u => u.username == username) with
  | none =>
    dsimp only
    exact h uid
  | some user =>
    dsimp only
    rw [List.filter_append, List.length_append]
    by_cases huid : uid = user.id
    · subst huid
      rw [filter_unused_invalidate_self]
      simp
    · rw [filter_unused_invalidate_other _ _ _ huid]
      have hne : (user.id == uid) = false :=
        beq_eq_false_iff_ne.mpr (fun hh => huid hh.symm)
      simpa [hne] using h uid

/-- The at-most-one-unused bound survives any sequence of issue
operations. -/
theorem issueRuns_at_most_one_unused (ops : List (String × Nat × String)) (db : AuthDB)
    (h : ∀ uid, ((db.reset_tokens.filter
      (fun rt => rt.user_id == uid && !rt.used)).length ≤ 1)) :
    ∀ uid, (((issueRuns db ops).reset_tokens.filter
      (fun rt => rt.user_id == uid && !rt.used)).length ≤ 1) := by
  induction ops generalizing db with
  | nil => exact h
  | cons op rest ih =>
    exact ih _ (create_at_most_one_unused db op.1 op.2.1 op.2.2 h)

/-- Active (unused and unexpired) tokens are a sublist of unused tokens. -/
theorem active_le_unused (tokens : List ResetTokenRec) (uid now : Nat) :
    (tokens.filter (fun rt => rt.user_id == uid && rt.is_valid now)).length ≤
      (tokens.filter (fun rt => rt.user_id == uid && !rt.used)).length := by
  apply List.Sublist.length_le
  apply List.monotone_filter_right
  intro rt hrt
  simp only [Bool.and_eq_true] at hrt ⊢
  refine ⟨hrt.1, ?_⟩
  have hv := hrt.2
  unfold ResetTokenRec.is_valid at hv
  by_cases hu : rt.used
  · rw [if_pos hu] at hv
    exact absurd hv (by simp)
  · simp [hu]

/-- A successful search in the left part of an append is the search result of
the whole list. -/
theorem find?_append_some {α : Type} (p : α → Bool) (l1 l2 : List α) (a : α)
    (h : l1.find? p = some a) : (l1 ++ l2).find? p = some a := by
  induction l1 with
  | nil => simp [List.find?] at h
  | cons x l ih =>
    rw [List.find?_cons] at h
    rw [List.cons_append, List.find?_cons]
    cases hp : p x with
    | true =>
      rw [hp] at h
      simpa [hp] using h
    | false =>
      rw [hp] at h
      simpa [hp] using ih h

/-- C5: reset-token supersession invariant.  Issuing a password-reset token
first marks every outstanding unused reset token of that user used, so the
only unused token left for the user is the fresh one; redeeming a previously
active token A after issuing B reports the invalid-token failure even though
A has not expired; and after any sequence of issue operations from a state
with at most one unused reset token per user, every user has at most one
active (unused, unexpired) reset token. -/
theorem reset_token_supersession (db : AuthDB) (user : UserRec)
    (username tokB pw : String) (A : ResetTokenRec) (nowB now2 : Nat)
    (ops : List (String × Nat × String)) :
    (db.users.find? (fun u => u.username == username) = some user →
      (((create_password_reset_token db username nowB tokB).2).reset_tokens.filter
        (fun rt => rt.user_id == user.id && !rt.used)) =
        [⟨user.id, tokB, nowB + 3600, false⟩]) ∧
    (db.users.find? (fun u => u.username == username) = some user →
      db.reset_tokens.find? (fun r => r.token == A.token) = some A →
      A.user_id = user.id → A.used = false → now2 < A.expires_at →
      reset_password (create_password_reset_token db username nowB tokB).2 A.token pw now2 =
        ((false, "Invalid or expired reset token."),
          (create_password_reset_token db username nowB tokB).2)) ∧
    ((∀ uid, ((db.reset_tokens.filter
        (fun rt => rt.user_id == uid && !rt.used)).length ≤ 1)) →
      ∀ uid now3, (((issueRuns db ops).reset_tokens.filter
        (fun rt => rt.user_id == uid && rt.is_valid now3)).length ≤ 1)) := by
  refine ⟨?_, ?_, ?_⟩
  · intro hfind
    unfold create_password_reset_token
    rw [hfind]
    dsimp only
    rw [List.filter_append, filter_unused_invalidate_self]
    simp
  · intro hfind hfindA hAuid hAused _hAexp
    have hstate : ((create_password_reset_token db username nowB tokB).2).reset_tokens =
        (db.reset_tokens.map (fun rt =>
          if rt.user_id == user.id && !rt.used then { rt with used := true } else rt)) ++
          [⟨user.id, tokB, nowB + 3600, false⟩] := by
      unfold create_password_reset_token
      rw [hfind]
    have hmark : ((db.reset_tokens.map (fun rt =>
        if rt.user_id == user.id && !rt.used then { rt with used := true } else rt)).find?
          (fun r => r.token == A.token)) = some { A with used := true } := by
      rw [find?_token_map _ _ _ (fun r => by
        by_cases h : (r.user_id == user.id && !r.used) = true <;> simp [h])]
      rw [hfindA]
      have hcond : (A.user_id == user.id && !A.used) = true := by
        rw [hAused, beq_iff_eq.mpr hAuid]
        rfl
      rw [Option.map_some', hcond]
      simp only [if_true]
    apply reset_password_rejects_used _ _ _ _ ({ A with used := true })
    · rw [hstate]
      exact find?_append_some _ _ _ _ hmark
    · rfl
  · intro h uid now3
    exact le_trans (active_le_unused _ uid now3)
      (issueRuns_at_most_one_unused ops db h uid)

/-- C5 witness: with alice holding the active token `ta`, issuing `tb` leaves
`tb` as the only unused token, redeeming `ta` then fails with the state
unchanged, and a concrete run of two further issues keeps at most one active
token per user. -/
theorem reset_token_supersession_witness :
    ((((create_password_reset_token ⟨[⟨1, "alice", "x", none, none, none⟩],
        [⟨1, "ta", 1000, false⟩], []⟩ "alice" 0 "tb").2).reset_tokens.filter
          (fun rt => rt.user_id == 1 && !rt.used)) = [⟨1, "tb", 3600, false⟩]) ∧
    (reset_password (create_password_reset_token ⟨[⟨1, "alice", "x", none, none, none⟩],
        [⟨1, "ta", 1000, false⟩], []⟩ "alice" 0 "tb").2 "ta" "Als0!Strong#26" 5 =
      ((false, "Invalid or expired reset token."),
        (create_password_reset_token ⟨[⟨1, "alice", "x", none, none, none⟩],
          [⟨1, "ta", 1000, false⟩], []⟩ "alice" 0 "tb").2)) ∧
    (∀ uid now3, (((issueRuns ⟨[⟨1, "alice", "x", none, none, none⟩],
        [⟨1, "ta", 1000, false⟩], []⟩ [("alice", 0, "t1"), ("alice", 5, "t2")]).reset_tokens.filter
          (fun rt => rt.user_id == uid && rt.is_valid now3)).length ≤ 1)) := by
  have hbound : ∀ uid, ((([⟨1, "ta", 1000, false⟩] :
      List ResetTokenRec).filter (fun rt => rt.user_id == uid && !rt.used)).length ≤ 1) :=
    fun uid => le_trans (List.length_filter_le _ _) (by simp)
  have h := reset_token_supersession ⟨[⟨1, "alice", "x", none, none, none⟩],
    [⟨1, "ta", 1000, false⟩], []⟩ ⟨1, "alice", "x", none, none, none⟩
    "alice" "tb" "Als0!Strong#26" ⟨1, "ta", 1000, false⟩ 0 5
    [("alice", 0, "t1"), ("alice", 5, "t2")]
  exact ⟨h.1 rfl, h.2.1 rfl rfl rfl rfl (by decide), h.2.2 hbound⟩

/-- A failed search in the left part of an append continues in the right
part. -/
theorem find?_append_none {α : Type} (p : α → Bool) (l1 l2 : List α)
    (h : l1.find? p = none) : (l1 ++ l2).find? p = l2.find? p := by
  induction l1 with
  | nil => rfl
  | cons x l ih =>
    rw [List.find?_cons] at h
    rw [List.cons_append, List.find?_cons]
    cases hp : p x with
    | true =>
      rw [hp] at h
      simp at h
    | false =>
      rw [hp] at h
      simpa [hp] using ih h

/-- With a passing policy, `set_password` replaces the hash and cannot
fail. -/
theorem set_password_ok (u : UserRec) (password : String)
    (hpol : password_policy_errors (some password) = []) :
    set_password u password = .ok { u with password_hash := hashString password } := by
  unfold set_password enforce_password_policy
  rw [hpol]

/-- C7: duplicate registration handling.  Registering a username that already
exists returns the typed duplicate failure and leaves the store unchanged;
and when two registrations of the same free username race — both existence
checks reading the same snapshot — exactly one succeeds and the other
receives the translated unique-constraint failure, never an uncaught
exception. -/
theorem register_duplicate_identity (db : AuthDB) (username password : String)
    (now : Nat) :
    (∀ u, password_policy_errors (some password) = [] →
      db.users.find? (fun v => v.username == pyStrip username) = some u →
      register_user db db username password none none now =
        ((false, "Username already exists.", none), db)) ∧
    (password_policy_errors (some password) = [] →
      db.users.find? (fun v => v.username == pyStrip username) = none →
      ((concurrent_registration db username password none now).1.1 = true ∧
       (concurrent_registration db username password none now).2.1 =
         (false, "Username already exists. Please choose a different username.", none))) := by
  constructor
  · intro u hpol hfind
    unfold register_user
    rw [hpol]
    dsimp only
    rw [hfind]
  · intro hpol hfind
    have hset : ∀ v : UserRec, set_password v password =
        .ok { v with password_hash := hashString password } :=
      fun v => set_password_ok v password hpol
    have hr1 : register_user db db username password none none now =
        ((true, "Account created successfully! Please log in.",
          some ⟨nextId db.users, pyStrip username, hashString password, none, none, none⟩),
         { db with users := db.users ++
            [⟨nextId db.users, pyStrip username, hashString password, none, none, none⟩] }) := by
      unfold register_user
      rw [hpol]
      dsimp only
      rw [hfind]
      dsimp only
      simp only [Option.map_none']
      simp only [Bool.false_eq_true, if_false]
      rw [hset ⟨nextId db.users, pyStrip username, "", none, none, none⟩]
      dsimp only
      simp only [Option.isSome_none, Bool.false_eq_true, if_false]
    have hr2 : register_user db
        { db with users := db.users ++
          [⟨nextId db.users, pyStrip username, hashString password, none, none, none⟩] }
        username password none none now =
        ((false, "Username already exists. Please choose a different username.", none),
         { db with users := db.users ++
            [⟨nextId db.users, pyStrip username, hashString password, none, none, none⟩] }) := by
      unfold register_user
      rw [hpol]
      dsimp only
      rw [hfind]
      dsimp only
      simp only [Option.map_none']
      simp only [Bool.false_eq_true, if_false]
      rw [hset]
      dsimp only
      rw [find?_append_none _ _ _ hfind]
      have hbeq : ((⟨nextId db.users, pyStrip username, hashString password, none, none,
          none⟩ : UserRec).username == pyStrip username) = true := beq_iff_eq.mpr rfl
      simp only [List.find?_cons, hbeq, if_true, Option.isSome_some]
    unfold concurrent_registration
    dsimp only
    rw [hr1]
    dsimp only
    rw [hr2]
    exact ⟨rfl, rfl⟩

/-- C7 witness: registering `alice` into a store where `alice` exists reports
the duplicate failure, and a concurrent pair of `alice` registrations against
the empty store has exactly one winner. -/
theorem register_duplicate_identity_witness :
    register_user ⟨[⟨1, "alice", "x", none, none, none⟩], [], []⟩
        ⟨[⟨1, "alice", "x", none, none, none⟩], [], []⟩
        "alice" "Str0ng!Pass#2025" none none 0 =
      ((false, "Username already exists.", none),
        ⟨[⟨1, "alice", "x", none, none, none⟩], [], []⟩) ∧
    (concurrent_registration ⟨[], [], []⟩ "alice" "Str0ng!Pass#2025" none 0).1.1 = true ∧
    (concurrent_registration ⟨[], [], []⟩ "alice" "Str0ng!Pass#2025" none 0).2.1 =
      (false, "Username already exists. Please choose a different username.", none) := by
  refine ⟨?_, ?_⟩
  · exact (register_duplicate_identity ⟨[⟨1, "alice", "x", none, none, none⟩], [], []⟩
      "alice" "Str0ng!Pass#2025" 0).1 ⟨1, "alice", "x", none, none, none⟩
      (by decide) (by decide)
  · exact (register_duplicate_identity ⟨[], [], []⟩ "alice" "Str0ng!Pass#2025" 0).2
      (by decide) rfl

/-- C9: username-enumeration resistance at the username/password stage.  A
login with an unknown username and a login with a wrong password for an
existing user both authenticate to `none` and produce the identical generic
invalid-credentials response with the state unchanged — the two failing runs
are equal. -/
theorem login_username_enumeration_resistant (db : AuthDB) (u1 p1 u2 p2 : String)
    (user : UserRec) (c1 c2 : Option String) (now1 now2 : Nat) :
    db.users.find? (fun u => u.username == u1 || u.email == some u1) = none →
    db.users.find? (fun u => u.username == u2 || u.email == some u2) = some user →
    user.password_hash ≠ hashString p2 →
    authenticate_user db u1 p1 = none ∧
    authenticate_user db u2 p2 = none ∧
    api_login db u1 p1 c1 now1 = (.invalidCredentials, db) ∧
    api_login db u2 p2 c2 now2 = (.invalidCredentials, db) ∧
    api_login db u1 p1 c1 now1 = api_login db u2 p2 c2 now2 := by
  intro h1 h2 hpw
  have ha1 : authenticate_user db u1 p1 = none := by
    unfold authenticate_user
    rw [h1]
  have ha2 : authenticate_user db u2 p2 = none := by
    unfold authenticate_user
    rw [h2]
    dsimp only
    have hc : check_password user p2 = false := by
      unfold check_password
      exact beq_eq_false_iff_ne.mpr hpw
    rw [hc]
    simp
  have hl1 : api_login db u1 p1 c1 now1 = (.invalidCredentials, db) := by
    unfold api_login
    rw [ha1]
  have hl2 : api_login db u2 p2 c2 now2 = (.invalidCredentials, db) := by
    unfold api_login
    rw [ha2]
  exact ⟨ha1, ha2, hl1, hl2, hl1.trans hl2.symm⟩

/-- C9 witness: with only `alice` enrolled, the runs `bob` with any password
and `alice` with a wrong password produce the same invalid-credentials
result. -/
theorem login_username_enumeration_resistant_witness :
    api_login ⟨[⟨1, "alice", hashString "Str0ng!Pass#2025", none, none, none⟩], [], []⟩
        "bob" "whatever" none 7 =
      (.invalidCredentials,
        ⟨[⟨1, "alice", hashString "Str0ng!Pass#2025", none, none, none⟩], [], []⟩) ∧
    api_login ⟨[⟨1, "alice", hashString "Str0ng!Pass#2025", none, none, none⟩], [], []⟩
        "alice" "Wr0ng!Pass#2025" none 9 =
      (.invalidCredentials,
        ⟨[⟨1, "alice", hashString "Str0ng!Pass#2025", none, none, none⟩], [], []⟩) := by
  have h := login_username_enumeration_resistant
    ⟨[⟨1, "alice", hashString "Str0ng!Pass#2025", none, none, none⟩], [], []⟩
    "bob" "whatever" "alice" "Wr0ng!Pass#2025"
    ⟨1, "alice", hashString "Str0ng!Pass#2025", none, none, none⟩
    none none 7 9 (by decide) (by decide) (by decide)
  exact ⟨h.2.2.1, h.2.2.2.1⟩

end NoteHub
